import Mathlib

/-!
Verification of the typst-2-rsx conversion library.

The Rust sources (`src/lib.rs`, `src/svg_types.rs`, `src/utils.rs`,
`src/error.rs`) are shallowly embedded below:

* the serde data model of `svg_types.rs` becomes plain Lean structures and
  inductives (`Option String` for optional attributes);
* the RSX output produced by the `rsx!` invocations in `lib.rs` is modelled as
  a `UiNode` tree whose attribute values are `Option String`: an attribute
  written as `k: expr.clone().unwrap_or_default()` carries `some (v.getD "")`,
  an attribute written as `k: expr.clone()` on an `Option<String>` field
  carries the option unchanged (Dioxus omits the attribute when it is `None`),
  and a plain `String` field carries `some v`;
* the fallible orchestration of `lib.rs` (`typst_compile`, `typst_to_rsx`)
  becomes functions into `Except`, parametrised by the outcomes of the
  external collaborators (directory creation, process spawn, file read, and
  the external `serde_xml_rs::from_str` deserializer).
-/

namespace T2R

/-- The `Path` struct of `svg_types.rs`: required `d`, all other attributes
`Option<String>`.  The Rust field `class` is a Lean keyword, hence `«class»`. -/
structure Path where
  d : String
  «class» : Option String
  fill : Option String
  stroke : Option String
  fill_rule : Option String
  stroke_width : Option String
  stroke_linecap : Option String
  stroke_linejoin : Option String
  stroke_miterlimit : Option String
deriving DecidableEq, Repr

/-- The `Use` struct of `svg_types.rs`. -/
structure Use where
  fill : Option String
  x : String
  fill_rule : Option String
  href : String
  transform : Option String
deriving DecidableEq, Repr

/-- The `Image` struct of `svg_types.rs`; the Rust field
`preserve_aspect_ratio` is shortened to `preserveAspect`. -/
structure Image where
  width : String
  height : String
  preserveAspect : String
  href : String
  transform : Option String
deriving DecidableEq, Repr

mutual
/-- The `G` struct of `svg_types.rs`: optional `class` and `transform`, and an
`Option<Vec<GEle>>` child list (`mk class transform elements`). -/
inductive G : Type where
  | mk : Option String → Option String → Option (List GEle) → G

/-- The `GEle` enum of `svg_types.rs`. -/
inductive GEle : Type where
  | G : G → GEle
  | Use : Use → GEle
  | Path : Path → GEle
  | Image : Image → GEle
end

/-- Projection for the `class` field of `G`. -/
def G.cls : G → Option String
  | .mk c _ _ => c

/-- Projection for the `transform` field of `G`. -/
def G.transform : G → Option String
  | .mk _ t _ => t

/-- Projection for the `elements` field of `G`. -/
def G.elements : G → Option (List GEle)
  | .mk _ _ e => e

/-- The `SymbolEle` enum of `svg_types.rs`. -/
inductive SymbolEle : Type where
  | Path : Path → SymbolEle
  | Image : Image → SymbolEle
deriving DecidableEq, Repr

/-- The `Symbol` struct of `svg_types.rs`. -/
structure Symbol where
  id : String
  overflow : String
  element : SymbolEle
deriving DecidableEq, Repr

/-- The `Defs` struct of `svg_types.rs`. -/
structure Defs where
  id : String
  elements : List Symbol
deriving DecidableEq, Repr

/-- The `SvgEle` enum of `svg_types.rs`. -/
inductive SvgEle : Type where
  | Path : Path → SvgEle
  | G : G → SvgEle
  | Defs : Defs → SvgEle

/-- The `Svg` struct of `svg_types.rs` (root canvas). -/
structure Svg where
  «class» : String
  width : String
  height : String
  view_box : String
  elements : List SvgEle

/-- The output tree: one node of the RSX element produced by the `rsx!`
invocations of `lib.rs`.  Attribute values are `Option String`, see the module
docstring. -/
inductive UiNode : Type where
  | mk : String → List (String × Option String) → List UiNode → UiNode

/-- Tag of a `UiNode`. -/
def UiNode.tag : UiNode → String
  | .mk t _ _ => t

/-- Attribute list of a `UiNode`. -/
def UiNode.attributes : UiNode → List (String × Option String)
  | .mk _ a _ => a

/-- Children of a `UiNode`. -/
def UiNode.children : UiNode → List UiNode
  | .mk _ _ c => c

mutual
/-- The inner function `from_g_element` of `parse_svg_to_rsx` in `lib.rs`:
maps one `GEle` to its RSX node.  Attribute order and the
defaulted-versus-passed-through distinction follow the `rsx!` blocks at
lines 182-233 of `lib.rs` exactly. -/
def from_g_element : GEle → UiNode
  | GEle.G (G.mk c t none) =>
      UiNode.mk "g"
        [("class", some (c.getD "")), ("transform", some (t.getD ""))] []
  | GEle.G (G.mk c t (some es)) =>
      UiNode.mk "g"
        [("class", some (c.getD "")), ("transform", some (t.getD ""))]
        (from_g_list es)
  | GEle.Use u =>
      UiNode.mk "use"
        [("fill", u.fill), ("x", some u.x), ("fill_rule", u.fill_rule),
         ("href", some u.href), ("transform", u.transform)] []
  | GEle.Path p =>
      UiNode.mk "path"
        [("d", some p.d), ("class", p.«class»),
         ("fill", some (p.fill.getD "")),
         ("fill_rule", some (p.fill_rule.getD "")),
         ("stroke", some (p.stroke.getD "")),
         ("stroke_width", some (p.stroke_width.getD "")),
         ("stroke_linecap", some (p.stroke_linecap.getD "")),
         ("stroke_linejoin", some (p.stroke_linejoin.getD "")),
         ("stroke_miterlimit", some (p.stroke_miterlimit.getD ""))] []
  | GEle.Image i =>
      UiNode.mk "image"
        [("width", some i.width), ("height", some i.height),
         ("preserve_aspect_ratio", some i.preserveAspect),
         ("href", some i.href), ("transform", i.transform)] []

/-- The iteration `elements.iter().map(from_g_element)` of `lib.rs`. -/
def from_g_list : List GEle → List UiNode
  | [] => []
  | e :: es => from_g_element e :: from_g_list es
end

/-- The inner function `from_symbol` of `parse_svg_to_rsx` in `lib.rs`
(lines 245-275): one `symbol` node with a single child built from the
`SymbolEle`.  Inside the symbol, the path attributes `class`, `fill`,
`fill_rule` are passed through unchanged and no stroke attributes appear. -/
def from_symbol (s : Symbol) : UiNode :=
  UiNode.mk "symbol" [("id", some s.id), ("overflow", some s.overflow)]
    [match s.element with
     | SymbolEle.Path p =>
         UiNode.mk "path"
           [("d", some p.d), ("class", p.«class»), ("fill", p.fill),
            ("fill_rule", p.fill_rule)] []
     | SymbolEle.Image i =>
         UiNode.mk "image"
           [("width", some i.width), ("height", some i.height),
            ("preserve_aspect_ratio", some i.preserveAspect),
            ("href", some i.href), ("transform", i.transform)] []]

/-- The inner function `from_svg_element` of `parse_svg_to_rsx` in `lib.rs`
(lines 132-170): maps one top-level `SvgEle` to its RSX node.  Top-level paths
default every optional attribute with `unwrap_or_default`. -/
def from_svg_element : SvgEle → UiNode
  | SvgEle.Path p =>
      UiNode.mk "path"
        [("d", some p.d), ("class", some (p.«class».getD "")),
         ("fill", some (p.fill.getD "")),
         ("fill_rule", some (p.fill_rule.getD "")),
         ("stroke", some (p.stroke.getD "")),
         ("stroke_width", some (p.stroke_width.getD "")),
         ("stroke_linecap", some (p.stroke_linecap.getD "")),
         ("stroke_linejoin", some (p.stroke_linejoin.getD "")),
         ("stroke_miterlimit", some (p.stroke_miterlimit.getD ""))] []
  | SvgEle.G (G.mk c t es) =>
      UiNode.mk "g"
        [("class", some (c.getD "")), ("transform", some (t.getD ""))]
        (from_g_list (es.getD []))
  | SvgEle.Defs d =>
      UiNode.mk "defs" [("id", some d.id)] (d.elements.map from_symbol)

/-- The root `rsx!(svg { ... })` construction of `parse_svg_to_rsx`
(lines 282-289 of `lib.rs`): tag `svg`, attributes `view_box`, `width`,
`height` relayed from the parsed `Svg`, children mapped in order.  The
canvas `class` field is not written into the node. -/
def svgToUiNode (svg : Svg) : UiNode :=
  UiNode.mk "svg"
    [("view_box", some svg.view_box), ("width", some svg.width),
     ("height", some svg.height)]
    (svg.elements.map from_svg_element)

/-! ### Errors and orchestration (`error.rs`, `lib.rs`, `utils.rs`) -/

/-- Opaque cause of an IO failure (`std::io::Error`). -/
abbrev IoError := String

/-- Opaque cause of a deserialization failure (`serde_xml_rs::Error`). -/
abbrev XmlError := String

/-- An exit status of the spawned `typst` process (`std::process::ExitStatus`);
`code` is the raw exit code. -/
structure ExitStatus where
  code : Int
deriving DecidableEq, Repr

/-- `ExitStatus::success`: the status is a success exactly when the code is 0. -/
def ExitStatus.success (s : ExitStatus) : Bool := s.code == 0

/-- Modelled from the spec: the unified error enum `Error` returned by the
fallible functions of `lib.rs`.  Its Rust definition is not among the provided
sources (`error.rs` only defines the unused `ConvertError`); the variants
follow §7 of the specification and the constructor uses visible in `lib.rs`:
`TypstCompileError` wraps the IO cause of a failed process spawn,
`SvgParseError` wraps the deserializer cause, and `Io` models the
`From<std::io::Error>` conversion applied by the `?` operator to directory
creation and file-read failures. -/
inductive Error : Type where
  | TypstCompileError : IoError → Error
  | Io : IoError → Error
  | SvgParseError : XmlError → Error
deriving DecidableEq, Repr

/-- `typst_compile` of `lib.rs` (lines 69-87), parametrised by the outcomes of
its external effects: `pathExists` is whether the output path already exists,
`dirRes` the outcome of `fs::create_dir_all` (converted by `?` on failure),
and `statusRes` the outcome of `Command::status`.  A spawn failure becomes
`Error.TypstCompileError`; a successful spawn returns the exit status as `ok`
whatever its code. -/
def typst_compile (pathExists : Bool) (dirRes : Except IoError Unit)
    (statusRes : Except IoError ExitStatus) : Except Error ExitStatus :=
  match (if pathExists then Except.ok () else dirRes) with
  | .error e => .error (Error.Io e)
  | .ok _ =>
      match statusRes with
      | .ok st => .ok st
      | .error e => .error (Error.TypstCompileError e)

/-- `parse_svg_to_rsx` of `lib.rs` (lines 277-292), parametrised by the
external deserializer `serde_xml_rs::from_str`: on success the parsed `Svg`
is remapped by the root `rsx!` construction, on failure the cause is wrapped
in `Error.SvgParseError`. -/
def parse_svg_to_rsx (fromStr : String → Except XmlError Svg)
    (svgStr : String) : Except Error UiNode :=
  match fromStr svgStr with
  | .ok svg => .ok (svgToUiNode svg)
  | .error e => .error (Error.SvgParseError e)

/-- `typst_to_rsx` of `lib.rs` (lines 323-328): compile, read, parse and remap
in order, each step short-circuiting with `?`.  `readRes` is the outcome of
`read_file("./tmp/temp.svg")` (an IO failure is converted by `?`). -/
def typst_to_rsx (pathExists : Bool) (dirRes : Except IoError Unit)
    (statusRes : Except IoError ExitStatus) (readRes : Except IoError String)
    (fromStr : String → Except XmlError Svg) : Except Error UiNode :=
  match typst_compile pathExists dirRes statusRes with
  | .error e => .error e
  | .ok _ =>
      match readRes with
      | .error e => .error (Error.Io e)
      | .ok content => parse_svg_to_rsx fromStr content

/-- Splitting a character sequence at every `\n`, keeping the pieces (the
separator-delimited decomposition underlying `BufRead::lines`). -/
def splitNl : List Char → List (List Char)
  | [] => [[]]
  | c :: cs =>
      if c = '\n' then [] :: splitNl cs
      else
        match splitNl cs with
        | [] => [[c]]
        | p :: ps => (c :: p) :: ps

/-- The per-line `\r`-stripping performed by `BufRead::lines`: a line that was
terminated by `\n` additionally loses one trailing `\r`. -/
def stripCr : List Char → List Char
  | [] => []
  | ['\x0d'] => []
  | c :: cs => c :: stripCr cs

/-- The line sequence `BufReader::lines` yields on a text file, applied to the
pieces of the content split at `\n`: every piece except the last was
`\n`-terminated and loses a trailing `\r`; a final empty piece comes from a
trailing `\n` and yields no line; a final non-empty piece is an unterminated
last line, returned as-is. -/
def bufLines : List (List Char) → List (List Char)
  | [] => []
  | [l] => if l = [] then [] else [l]
  | l :: ls => stripCr l :: bufLines ls

/-- The pure content transformation of `read_file` in `utils.rs` (lines 7-29)
on a successfully opened text file: each line yielded by `lines()` is pushed
onto the result followed by a manually appended `\n`. -/
def read_file (content : String) : String :=
  String.mk ((bufLines (splitNl content.data)).foldr
    (fun l r => l ++ '\n' :: r) [])

/-! ### The deserializer, modelled from the spec

`lib.rs` parses with `serde_xml_rs::from_str`, whose behaviour on the schema
of `svg_types.rs` is generated code that is not among the provided sources.
The definitions below model it from §3 and §4.1 of the specification over a
generic XML element tree. -/

/-- Modelled from the spec: a raw XML element as seen by the deserializer —
a tag name, an attribute list and child elements. -/
inductive Xml : Type where
  | node : String → List (String × String) → List Xml → Xml

/-- Attribute lookup in a raw XML element's attribute list. -/
def getAttr (attrs : List (String × String)) (k : String) : Option String :=
  (attrs.find? (fun p => p.1 == k)).map Prod.snd

/-- Modelled from the spec: a required attribute; absence is a parse error. -/
def reqAttr (attrs : List (String × String)) (k : String) :
    Except XmlError String :=
  match getAttr attrs k with
  | some v => .ok v
  | none => .error ("missing required attribute " ++ k)

/-- Modelled from the spec: deserializing a `path` element's attributes
(required `d`, the rest optional); a `path` owns no children (§3). -/
def parsePathBody (attrs : List (String × String)) (children : List Xml) :
    Except XmlError Path :=
  if children.isEmpty then
    match getAttr attrs "d" with
    | some d =>
        .ok (Path.mk d (getAttr attrs "class") (getAttr attrs "fill")
          (getAttr attrs "stroke") (getAttr attrs "fill-rule")
          (getAttr attrs "stroke-width") (getAttr attrs "stroke-linecap")
          (getAttr attrs "stroke-linejoin") (getAttr attrs "stroke-miterlimit"))
    | none => .error "path: missing required attribute d"
  else .error "path: unexpected children"

/-- Modelled from the spec: deserializing a `use` element (required `x`,
`href`; optional `fill`, `fill-rule`, `transform`; no children). -/
def parseUseBody (attrs : List (String × String)) (children : List Xml) :
    Except XmlError Use :=
  if children.isEmpty then
    match reqAttr attrs "x" with
    | .error e => .error e
    | .ok x =>
        match reqAttr attrs "href" with
        | .error e => .error e
        | .ok href =>
            .ok (Use.mk (getAttr attrs "fill") x (getAttr attrs "fill-rule")
              href (getAttr attrs "transform"))
  else .error "use: unexpected children"

/-- Modelled from the spec: deserializing an `image` element (required
`width`, `height`, `preserveAspectRatio`, `href`; optional `transform`;
no children). -/
def parseImageBody (attrs : List (String × String)) (children : List Xml) :
    Except XmlError Image :=
  if children.isEmpty then
    match reqAttr attrs "width" with
    | .error e => .error e
    | .ok w =>
        match reqAttr attrs "height" with
        | .error e => .error e
        | .ok h =>
            match reqAttr attrs "preserveAspectRatio" with
            | .error e => .error e
            | .ok par =>
                match reqAttr attrs "href" with
                | .error e => .error e
                | .ok href =>
                    .ok (Image.mk w h par href (getAttr attrs "transform"))
  else .error "image: unexpected children"

mutual
/-- Modelled from the spec: deserializing one child of a `g` container.  Only
the tags `g`, `use`, `path`, `image` fit the `GEle` variant set; any other
tag is a parse error, never a silent drop. -/
def parseGEle : Xml → Except XmlError GEle
  | Xml.node t attrs ch =>
      if t = "g" then
        match parseGList ch with
        | .error e => .error e
        | .ok es =>
            .ok (GEle.G (G.mk (getAttr attrs "class")
              (getAttr attrs "transform")
              (if ch.isEmpty then none else some es)))
      else if t = "use" then
        match parseUseBody attrs ch with
        | .error e => .error e
        | .ok u => .ok (GEle.Use u)
      else if t = "path" then
        match parsePathBody attrs ch with
        | .error e => .error e
        | .ok p => .ok (GEle.Path p)
      else if t = "image" then
        match parseImageBody attrs ch with
        | .error e => .error e
        | .ok i => .ok (GEle.Image i)
      else .error ("unknown tag in g: " ++ t)

/-- Modelled from the spec: deserializing the child sequence of a `g`
container, failing on the first ill-formed child. -/
def parseGList : List Xml → Except XmlError (List GEle)
  | [] => .ok []
  | x :: xs =>
      match parseGEle x with
      | .error e => .error e
      | .ok g =>
          match parseGList xs with
          | .error e => .error e
          | .ok gs => .ok (g :: gs)
end

/-- Modelled from the spec: deserializing the single content element of a
`symbol` — only `path` or `image` fit the `SymbolEle` variant set (§3). -/
def parseSymbolEle : Xml → Except XmlError SymbolEle
  | Xml.node t attrs ch =>
      if t = "path" then
        match parsePathBody attrs ch with
        | .error e => .error e
        | .ok p => .ok (SymbolEle.Path p)
      else if t = "image" then
        match parseImageBody attrs ch with
        | .error e => .error e
        | .ok i => .ok (SymbolEle.Image i)
      else .error ("unknown tag in symbol: " ++ t)

/-- Modelled from the spec: deserializing a `symbol` element — required `id`
and `overflow`, and exactly one content element. -/
def parseSymbol : Xml → Except XmlError Symbol
  | Xml.node t attrs ch =>
      if t = "symbol" then
        match reqAttr attrs "id" with
        | .error e => .error e
        | .ok i =>
            match reqAttr attrs "overflow" with
            | .error e => .error e
            | .ok ov =>
                match ch with
                | [c] =>
                    match parseSymbolEle c with
                    | .error e => .error e
                    | .ok el => .ok (Symbol.mk i ov el)
                | _ => .error "symbol: expected exactly one content element"
      else .error ("unknown tag in defs: " ++ t)

/-- Modelled from the spec: deserializing the symbol sequence of a `defs`
container, failing on the first ill-formed entry. -/
def parseSymbolList : List Xml → Except XmlError (List Symbol)
  | [] => .ok []
  | x :: xs =>
      match parseSymbol x with
      | .error e => .error e
      | .ok s =>
          match parseSymbolList xs with
          | .error e => .error e
          | .ok ss => .ok (s :: ss)

/-- Modelled from the spec: deserializing one top-level canvas child.  Only
the tags `path`, `g`, `defs` fit the `SvgEle` variant set; any other tag is a
parse error. -/
def parseSvgEle : Xml → Except XmlError SvgEle
  | Xml.node t attrs ch =>
      if t = "path" then
        match parsePathBody attrs ch with
        | .error e => .error e
        | .ok p => .ok (SvgEle.Path p)
      else if t = "g" then
        match parseGList ch with
        | .error e => .error e
        | .ok es =>
            .ok (SvgEle.G (G.mk (getAttr attrs "class")
              (getAttr attrs "transform")
              (if ch.isEmpty then none else some es)))
      else if t = "defs" then
        match reqAttr attrs "id" with
        | .error e => .error e
        | .ok i =>
            match parseSymbolList ch with
            | .error e => .error e
            | .ok ss => .ok (SvgEle.Defs (Defs.mk i ss))
      else .error ("unknown tag in svg: " ++ t)

/-- Modelled from the spec: deserializing the canvas child sequence, failing
on the first ill-formed child. -/
def parseSvgList : List Xml → Except XmlError (List SvgEle)
  | [] => .ok []
  | x :: xs =>
      match parseSvgEle x with
      | .error e => .error e
      | .ok s =>
          match parseSvgList xs with
          | .error e => .error e
          | .ok ss => .ok (s :: ss)

/-- Modelled from the spec: deserializing the root — a `svg` element with
required `class`, `width`, `height`, `viewBox` and recognized children. -/
def parseSvg : Xml → Except XmlError Svg
  | Xml.node t attrs ch =>
      if t = "svg" then
        match reqAttr attrs "class" with
        | .error e => .error e
        | .ok c =>
            match reqAttr attrs "width" with
            | .error e => .error e
            | .ok w =>
                match reqAttr attrs "height" with
                | .error e => .error e
                | .ok h =>
                    match reqAttr attrs "viewBox" with
                    | .error e => .error e
                    | .ok vb =>
                        match parseSvgList ch with
                        | .error e => .error e
                        | .ok es => .ok (Svg.mk c w h vb es)
      else .error ("unknown root tag: " ++ t)

/-- A root canvas element wrapping the given children, used to state the
unknown-tag rejection property. -/
def svgDoc (ch : List Xml) : Xml :=
  Xml.node "svg"
    [("class", ""), ("width", "100"), ("height", "100"),
     ("viewBox", "0 0 100 100")] ch

/-- Whether an `Except` result is an error. -/
def isErr : Except XmlError Svg → Bool
  | .error _ => true
  | .ok _ => false

/-- The fixed attribute key list written by both path `rsx!` blocks of
`lib.rs`, in source order. -/
def pathKeys : List String :=
  ["d", "class", "fill", "fill_rule", "stroke", "stroke_width",
   "stroke_linecap", "stroke_linejoin", "stroke_miterlimit"]

/-! ### Helper lemmas -/

theorem from_g_list_eq_map (es : List GEle) :
    from_g_list es = es.map from_g_element := by
  induction es with
  | nil => simp [from_g_list]
  | cons e es ih => simp [from_g_list, ih]

theorem parse_svg_to_rsx_shape (fromStr : String → Except XmlError Svg)
    (s : String) :
    (∃ n, parse_svg_to_rsx fromStr s = .ok n) ∨
    (∃ e, parse_svg_to_rsx fromStr s = .error (Error.SvgParseError e)) := by
  unfold parse_svg_to_rsx
  cases h : fromStr s with
  | ok svg => exact Or.inl ⟨svgToUiNode svg, rfl⟩
  | error e => exact Or.inr ⟨e, rfl⟩

/-! ### Claim theorems -/

/-- C5: a `Group` whose child sequence is absent and one whose child sequence
is present but empty remap to equal `UiNode`s with zero children, both at the
canvas level and inside a group — the two inputs are indistinguishable in the
output. -/
theorem C5_absent_empty_equiv : ∀ (c t : Option String),
    from_svg_element (SvgEle.G (G.mk c t none))
      = from_svg_element (SvgEle.G (G.mk c t (some []))) ∧
    from_g_element (GEle.G (G.mk c t none))
      = from_g_element (GEle.G (G.mk c t (some []))) ∧
    (from_svg_element (SvgEle.G (G.mk c t none))).children = [] ∧
    (from_g_element (GEle.G (G.mk c t (some [])))).children = [] := by
  intro c t
  refine ⟨?_, ?_, ?_, ?_⟩ <;>
    simp [from_svg_element, from_g_element, from_g_list, UiNode.children]

/-- C6: children of the canvas, of every group (at either level) and of every
definition block appear in the remapped output in exactly the input order, as
the pointwise map of the recursive remapping over the original child list —
depth-first pre-order, no reordering, deduplication or sorting. -/
theorem C6_order_preserved : ∀ (svg : Svg) (g : G) (d : Defs),
    (svgToUiNode svg).children = svg.elements.map from_svg_element ∧
    (from_svg_element (SvgEle.G g)).children
      = (g.elements.getD []).map from_g_element ∧
    (from_g_element (GEle.G g)).children
      = (g.elements.getD []).map from_g_element ∧
    (from_svg_element (SvgEle.Defs d)).children
      = d.elements.map from_symbol := by
  intro svg g d
  cases g with
  | mk c t es =>
      cases es <;>
        simp [svgToUiNode, from_svg_element, from_g_element, G.elements,
          from_g_list_eq_map, UiNode.children]

/-- C7: a `Symbol` always remaps to a node with exactly one child, whose tag
is `path` when the content is a `Path` and `image` when it is an `Image`. -/
theorem C7_symbol_singularity : ∀ s : Symbol,
    (from_symbol s).children.length = 1 ∧
    (from_symbol s).children.map UiNode.tag =
      [match s.element with
       | SymbolEle.Path _ => "path"
       | SymbolEle.Image _ => "image"] := by
  intro s
  cases s with
  | mk i ov el =>
      cases el <;> simp [from_symbol, UiNode.children, UiNode.tag]

/-- C10: the remapped root node carries tag `svg` with `view_box`, `width`
and `height` relayed unchanged from the parsed canvas, and the canvas `class`
field does not occur among the root node's attribute keys at all. -/
theorem C10_root_attributes : ∀ svg : Svg,
    (svgToUiNode svg).tag = "svg" ∧
    (svgToUiNode svg).attributes =
      [("view_box", some svg.view_box), ("width", some svg.width),
       ("height", some svg.height)] ∧
    ((svgToUiNode svg).attributes.map Prod.fst).contains "class" = false := by
  intro svg
  refine ⟨rfl, rfl, ?_⟩
  simp [svgToUiNode, UiNode.attributes]

/-- C1 counterexample: a `use` element with an absent `fill` remaps to a node
whose `fill` attribute carries the option unchanged (`none`), not the empty
string — so absent optional attributes of a `Reference` are not materialized
as empty strings. -/
theorem C1_counterexample :
    (from_g_element (GEle.Use (Use.mk none "0" none "#g0" none))).attributes =
      [("fill", none), ("x", some "0"), ("fill_rule", none),
       ("href", some "#g0"), ("transform", none)] ∧
    (none : Option String) ≠ some "" := by
  exact ⟨by simp [from_g_element, UiNode.attributes], by simp⟩

/-- C1 amended: empty-string defaulting happens exactly where the source
calls `unwrap_or_default` — all optional attributes of a canvas-level `Path`,
`class`/`transform` of every `Group`, and all optional attributes except
`class` of a group-level `Path`.  The optional attributes of a `Reference`
(`fill`, `fill_rule`, `transform`), the `transform` of a `Raster`, the
`class` of a group-level `Path`, and `class`/`fill`/`fill_rule` of a
symbol-level `Path` are relayed as optional values unchanged, so an absent
input attribute stays absent. -/
theorem C1_amended_defaulting : ∀ (p : Path) (u : Use) (i : Image)
    (c t : Option String) (es : Option (List GEle)) (sid sov : String),
    (from_svg_element (SvgEle.Path p)).attributes =
      [("d", some p.d), ("class", some (p.«class».getD "")),
       ("fill", some (p.fill.getD "")),
       ("fill_rule", some (p.fill_rule.getD "")),
       ("stroke", some (p.stroke.getD "")),
       ("stroke_width", some (p.stroke_width.getD "")),
       ("stroke_linecap", some (p.stroke_linecap.getD "")),
       ("stroke_linejoin", some (p.stroke_linejoin.getD "")),
       ("stroke_miterlimit", some (p.stroke_miterlimit.getD ""))] ∧
    (from_g_element (GEle.Path p)).attributes =
      [("d", some p.d), ("class", p.«class»),
       ("fill", some (p.fill.getD "")),
       ("fill_rule", some (p.fill_rule.getD "")),
       ("stroke", some (p.stroke.getD "")),
       ("stroke_width", some (p.stroke_width.getD "")),
       ("stroke_linecap", some (p.stroke_linecap.getD "")),
       ("stroke_linejoin", some (p.stroke_linejoin.getD "")),
       ("stroke_miterlimit", some (p.stroke_miterlimit.getD ""))] ∧
    (from_svg_element (SvgEle.G (G.mk c t es))).attributes =
      [("class", some (c.getD "")), ("transform", some (t.getD ""))] ∧
    (from_g_element (GEle.G (G.mk c t es))).attributes =
      [("class", some (c.getD "")), ("transform", some (t.getD ""))] ∧
    (from_g_element (GEle.Use u)).attributes =
      [("fill", u.fill), ("x", some u.x), ("fill_rule", u.fill_rule),
       ("href", some u.href), ("transform", u.transform)] ∧
    (from_g_element (GEle.Image i)).attributes =
      [("width", some i.width), ("height", some i.height),
       ("preserve_aspect_ratio", some i.preserveAspect),
       ("href", some i.href), ("transform", i.transform)] ∧
    (from_symbol (Symbol.mk sid sov (SymbolEle.Path p))).children =
      [UiNode.mk "path"
        [("d", some p.d), ("class", p.«class»), ("fill", p.fill),
         ("fill_rule", p.fill_rule)] []] := by
  intro p u i c t es sid sov
  refine ⟨rfl, ?_, ?_, ?_, ?_, ?_, ?_⟩ <;>
    cases es <;>
      simp [from_svg_element, from_g_element, from_symbol, UiNode.attributes,
        UiNode.children]

/-- C2 counterexample: the path derived from a symbol content has the
attribute key list `[d, class, fill, fill_rule]`, not the fixed nine-key
set — `stroke` and the other stroke attributes are missing entirely. -/
theorem C2_counterexample :
    ((from_symbol (Symbol.mk "s0" "visible" (SymbolEle.Path
        (Path.mk "M0 0" none none none none none none none none)))).children.map
      (fun n => n.attributes.map Prod.fst)) =
      [["d", "class", "fill", "fill_rule"]] ∧
    "stroke" ∉ (["d", "class", "fill", "fill_rule"] : List String) := by
  exact ⟨by simp [from_symbol, UiNode.children, UiNode.attributes], by decide⟩

/-- C2 amended: a canvas-level path node carries exactly the fixed nine-key
set with every unset attribute mapped to the empty string; a group-level path
node carries the same nine keys but relays `class` unchanged (an absent
`class` stays absent) while defaulting the others; a symbol-level path node
carries only the keys `[d, class, fill, fill_rule]`, all relayed unchanged. -/
theorem C2_amended_path_keys : ∀ (p : Path) (sid sov : String),
    (from_svg_element (SvgEle.Path p)).attributes.map Prod.fst = pathKeys ∧
    (from_g_element (GEle.Path p)).attributes.map Prod.fst = pathKeys ∧
    ((from_symbol (Symbol.mk sid sov (SymbolEle.Path p))).children.map
      (fun n => n.attributes.map Prod.fst)) =
      [["d", "class", "fill", "fill_rule"]] ∧
    (from_svg_element (SvgEle.Path p)).attributes.lookup "class"
      = some (some (p.«class».getD "")) ∧
    (from_g_element (GEle.Path p)).attributes.lookup "class"
      = some p.«class» ∧
    (from_g_element (GEle.Path p)).attributes.lookup "stroke"
      = some (some (p.stroke.getD "")) := by
  intro p sid sov
  refine ⟨rfl, ?_, ?_, ?_, ?_, ?_⟩ <;>
    simp [from_g_element, from_svg_element, from_symbol, UiNode.attributes,
      UiNode.children, pathKeys, List.lookup]

/-- C3 counterexample: with the compiler spawn succeeding but returning the
failing exit status 1, `typst_to_rsx` does not fail with a compile error —
it proceeds to read and parse, surfacing the parser's failure instead. -/
theorem C3_counterexample :
    ExitStatus.success (ExitStatus.mk 1) = false ∧
    typst_to_rsx true (.ok ()) (.ok (ExitStatus.mk 1)) (.ok "content")
        (fun _ => .error "parse cause")
      = .error (Error.SvgParseError "parse cause") := by
  exact ⟨rfl, rfl⟩

/-- C3 amended: when the compiler process cannot be started, `typst_to_rsx`
fails with `TypstCompileError` carrying the underlying cause and the
read/parse/remap steps are not attempted (the result is independent of their
outcomes); but a spawn that returns a non-zero exit status is treated as
success and the pipeline continues with read and parse. -/
theorem C3_amended_short_circuit : ∀ (e : IoError)
    (readRes : Except IoError String)
    (fromStr : String → Except XmlError Svg) (st : ExitStatus),
    typst_to_rsx true (.ok ()) (.error e) readRes fromStr
      = .error (Error.TypstCompileError e) ∧
    typst_to_rsx true (.ok ()) (.ok st) readRes fromStr =
      (match readRes with
       | .error e2 => .error (Error.Io e2)
       | .ok content => parse_svg_to_rsx fromStr content) := by
  intro e rr fs st
  constructor <;> simp [typst_to_rsx, typst_compile]

/-- C4: evaluating the embedded `read_file` content transformation at a file
whose bytes are `a` (no trailing newline) yields `a` followed by an appended
newline, and at a file with CRLF line endings yields LF endings — in both
cases the returned string differs from the file's bytes, contradicting the
byte-for-byte preservation the claim (and the code's own comment) states. -/
theorem C4_read_file_not_identity :
    read_file "a" = "a\n" ∧ ("a\n" : String) ≠ "a" ∧
    read_file "a\r\nb\n" = "a\nb\n" ∧ ("a\nb\n" : String) ≠ "a\r\nb\n" := by
  refine ⟨by decide, by decide, by decide, by decide⟩

/-- C8: parsing markup that nests, inside a recognized container (`g`,
`defs`, `symbol`, or the root canvas), an element whose tag is outside the
recognized set fails with a parse error: the unrecognized element is never
silently dropped and no output tree is produced. -/
theorem C8_unknown_tag_rejected (t : String)
    (h : t ∉ (["path", "g", "defs", "symbol", "use", "image"] : List String)) :
    isErr (parseSvg (svgDoc [Xml.node "g" [] [Xml.node t [] []]])) = true ∧
    isErr (parseSvg (svgDoc [Xml.node "defs" [("id", "d0")]
        [Xml.node t [] []]])) = true ∧
    isErr (parseSvg (svgDoc [Xml.node "defs" [("id", "d0")]
        [Xml.node "symbol" [("id", "s0"), ("overflow", "visible")]
          [Xml.node t [] []]]])) = true ∧
    isErr (parseSvg (svgDoc [Xml.node t [] []])) = true := by
  simp only [List.mem_cons, List.not_mem_nil, or_false, not_or] at h
  obtain ⟨h1, h2, h3, h4, h5, h6⟩ := h
  refine ⟨?_, ?_, ?_, ?_⟩ <;>
    simp [parseSvg, svgDoc, reqAttr, getAttr, parseSvgList, parseSvgEle,
      parseGList, parseGEle, parseSymbolList, parseSymbol, parseSymbolEle,
      parsePathBody, parseUseBody, parseImageBody, isErr,
      h1, h2, h3, h4, h5, h6]

/-- C8 witness: the unrecognized tag `circle` nested inside a recognized `g`
container makes the modelled deserializer fail. -/
theorem C8_unknown_tag_rejected_witness :
    isErr (parseSvg (svgDoc [Xml.node "g" [] [Xml.node "circle" [] []]]))
      = true :=
  (C8_unknown_tag_rejected "circle" (by decide)).1

/-- C9: the whole conversion pipeline is a total function into a result
value: for every outcome of the external collaborators (directory creation,
process spawn, file read, deserializer) it returns either a remapped tree or
one of the three typed error values, and whenever the deserializer fails the
parsing step returns exactly `SvgParseError` wrapping the underlying cause —
no failure escapes as anything but a recoverable result value. -/
theorem C9_total_error_taxonomy : ∀ (pathExists : Bool)
    (dirRes : Except IoError Unit) (statusRes : Except IoError ExitStatus)
    (readRes : Except IoError String)
    (fromStr : String → Except XmlError Svg),
    ((∃ n, typst_to_rsx pathExists dirRes statusRes readRes fromStr = .ok n) ∨
     (∃ e, typst_to_rsx pathExists dirRes statusRes readRes fromStr
        = .error (Error.TypstCompileError e)) ∨
     (∃ e, typst_to_rsx pathExists dirRes statusRes readRes fromStr
        = .error (Error.Io e)) ∨
     (∃ e, typst_to_rsx pathExists dirRes statusRes readRes fromStr
        = .error (Error.SvgParseError e))) ∧
    (∀ (s : String) (e : XmlError), fromStr s = .error e →
      parse_svg_to_rsx fromStr s = .error (Error.SvgParseError e)) := by
  intro pe dr sr rr fs
  constructor
  · unfold typst_to_rsx typst_compile
    cases pe <;> cases dr <;> cases sr <;> cases rr <;>
      simp <;>
        first
          | exact Or.inr (Or.inl ⟨_, rfl⟩)
          | exact Or.inr (Or.inr (Or.inl ⟨_, rfl⟩))
          | rcases parse_svg_to_rsx_shape fs _ with ⟨n, hn⟩ | ⟨e, he⟩
            · exact Or.inl ⟨n, hn⟩
            · exact Or.inr (Or.inr (Or.inr ⟨e, he⟩))
  · intro s e h
    unfold parse_svg_to_rsx
    rw [h]

/-- C9 witness: a concrete deserializer failure surfaces as the
`SvgParseError` result value carrying the cause. -/
theorem C9_total_error_taxonomy_witness :
    parse_svg_to_rsx (fun _ => Except.error "cause") "x"
      = Except.error (Error.SvgParseError "cause") :=
  (C9_total_error_taxonomy true (.ok ()) (.ok (ExitStatus.mk 0)) (.ok "x")
    (fun _ => Except.error "cause")).2 "x" "cause" rfl

end T2R
